import Mathlib

/-!
Shallow embedding of the SMS-Grade-backend student grade service
(`server.js`, plus the legacy server variant shipped alongside it).

JavaScript numbers are idealized as rationals extended with NaN and signed
Infinity; `toFixed(2)` is idealized as exact decimal rounding (nearest, ties
toward positive infinity, as in the ECMA `toFixed` specification).  No
theorem below depends on binary floating point artifacts or on the decimal
rendering of non-integral numbers.
-/

/-- Idealized JavaScript number: NaN, signed Infinity, or a finite rational. -/
inductive JNum where
  | nan : JNum
  | inf : Bool → JNum
  | fin : ℚ → JNum
deriving DecidableEq, Repr

/-- The JavaScript values that can appear in a parsed spreadsheet/CSV row:
`undefined` (absent key), a string, or a number. -/
inductive JSVal where
  | undef : JSVal
  | str : String → JSVal
  | num : JNum → JSVal
deriving DecidableEq, Repr

/-- JavaScript truthiness: `undefined`, the empty string, `0` and `NaN` are
falsy; every other value occurring here is truthy. -/
def truthy : JSVal → Bool
  | JSVal.undef => false
  | JSVal.str s => if s = "" then false else true
  | JSVal.num JNum.nan => false
  | JSVal.num (JNum.inf _) => true
  | JSVal.num (JNum.fin q) => if q = 0 then false else true

/-- JavaScript `a || b`: `a` when truthy, otherwise `b`. -/
def jsOr (a b : JSVal) : JSVal :=
  if truthy a then a else b

/-- JavaScript `a / b` on idealized numbers (division by zero yields signed
Infinity or NaN; NaN propagates). -/
def jdiv : JNum → JNum → JNum
  | JNum.nan, _ => JNum.nan
  | _, JNum.nan => JNum.nan
  | JNum.fin a, JNum.fin b =>
      if b = 0 then
        (if a = 0 then JNum.nan else JNum.inf (decide (0 < a)))
      else JNum.fin (a / b)
  | JNum.fin _, JNum.inf _ => JNum.fin 0
  | JNum.inf s, JNum.fin b => if 0 ≤ b then JNum.inf s else JNum.inf (!s)
  | JNum.inf _, JNum.inf _ => JNum.nan

/-- JavaScript `a * b` on idealized numbers. -/
def jmul : JNum → JNum → JNum
  | JNum.nan, _ => JNum.nan
  | _, JNum.nan => JNum.nan
  | JNum.fin a, JNum.fin b => JNum.fin (a * b)
  | JNum.inf s, JNum.fin q =>
      if q = 0 then JNum.nan else JNum.inf (s = decide (0 < q))
  | JNum.fin q, JNum.inf s =>
      if q = 0 then JNum.nan else JNum.inf (s = decide (0 < q))
  | JNum.inf s, JNum.inf t => JNum.inf (s = t)

/-- Is the number finite (neither NaN nor Infinity)? -/
def jfinite : JNum → Bool
  | JNum.fin _ => true
  | _ => false

/-- All-decimal-digit character list. -/
def allDigits (l : List Char) : Bool := l.all Char.isDigit

/-- Decimal value of a digit list. -/
def digitsToNat (l : List Char) : Nat :=
  l.foldl (fun a c => a * 10 + (c.toNat - 48)) 0

/-- Unsigned decimal parse `ddd` or `ddd.ddd` (at least one digit). -/
def parseUnsigned (s : String) : Option ℚ :=
  match s.splitOn "." with
  | [i] =>
      if allDigits i.toList ∧ i.toList ≠ [] then
        some ((digitsToNat i.toList : ℚ))
      else none
  | [i, f] =>
      if allDigits i.toList ∧ allDigits f.toList ∧ (i.toList ≠ [] ∨ f.toList ≠ []) then
        some ((digitsToNat i.toList : ℚ) + (digitsToNat f.toList : ℚ) / ((10 : ℚ) ^ f.toList.length))
      else none
  | _ => none

/-- Parse after stripping a sign: `Infinity` or an unsigned decimal. -/
def parseUnsignedNum (s : String) : JNum :=
  if s = "Infinity" then JNum.inf true
  else
    match parseUnsigned s with
    | some q => JNum.fin q
    | none => JNum.nan

/-- Models JavaScript `Number(string)`: trimmed empty string is `0`, optional
sign, `Infinity`, decimal numerals; anything else is NaN.  (Hexadecimal and
exponent forms are not modelled; no theorem depends on them.) -/
def parseNumber (s : String) : JNum :=
  let t := s.trim
  if t = "" then JNum.fin 0
  else if t.startsWith "-" then
    match parseUnsignedNum (t.drop 1) with
    | JNum.fin q => JNum.fin (-q)
    | JNum.inf _ => JNum.inf false
    | JNum.nan => JNum.nan
  else if t.startsWith "+" then parseUnsignedNum (t.drop 1)
  else parseUnsignedNum t

/-- JavaScript `Number(x)` on row values: `undefined` coerces to NaN,
numbers are themselves, strings are parsed. -/
def toNumber : JSVal → JNum
  | JSVal.undef => JNum.nan
  | JSVal.num n => n
  | JSVal.str s => parseNumber s

/-- Decimal rendering of an idealized number.  Matches JavaScript for NaN,
Infinity and integers; non-integral rationals get a fraction rendering
(JavaScript renders decimal floats — no theorem depends on this case). -/
def jnumToString : JNum → String
  | JNum.nan => "NaN"
  | JNum.inf true => "Infinity"
  | JNum.inf false => "-Infinity"
  | JNum.fin q =>
      if q.den = 1 then
        (if q.num < 0 then "-" ++ toString q.num.natAbs else toString q.num.natAbs)
      else
        (if q.num < 0 then "-" else "") ++ toString q.num.natAbs ++ "/" ++ toString q.den

/-- JavaScript `String(x)`: `undefined` becomes the literal text
`"undefined"`, strings are themselves, numbers are rendered. -/
def jsToString : JSVal → String
  | JSVal.undef => "undefined"
  | JSVal.str s => s
  | JSVal.num n => jnumToString n

/-- Round to the nearest integer, ties toward positive infinity. -/
def qRound (x : ℚ) : ℤ := Rat.floor (x + 1 / 2)

/-- Exact rounding to two decimal places. -/
def round2Q (x : ℚ) : ℚ := ((qRound (x * 100) : ℤ) : ℚ) / 100

/-- Models JavaScript `Number(x.toFixed(2))`: NaN and ±Infinity round-trip
through the strings `"NaN"` / `"Infinity"` / `"-Infinity"` unchanged; a
finite value is rounded to two decimal places. -/
def toFixed2 : JNum → JNum
  | JNum.nan => JNum.nan
  | JNum.inf b => JNum.inf b
  | JNum.fin q => JNum.fin (round2Q q)

/-- A parsed row: a JavaScript object read as a total map from property
names to values, absent keys reading as `undefined`. -/
def Row : Type := String → JSVal

/-- JavaScript `row.k1 || row.k2 || ... || row.kn`: the first truthy value,
or the last operand's value when none is truthy. -/
def resolveKeys (row : Row) : List String → JSVal
  | [] => JSVal.undef
  | [k] => row k
  | k :: ks => jsOr (row k) (resolveKeys row ks)

/-- Accepted spellings for the student id column (`server.js` line 141),
in priority order. -/
def idKeys : List String := ["Student_ID", "student_id", "Student ID"]

/-- Accepted spellings for the student name column (`server.js` line 142). -/
def nameKeys : List String := ["Student_Name", "student_name", "Student Name"]

/-- Accepted spellings for the total marks column (`server.js` line 137). -/
def totalKeys : List String := ["Total_Marks", "total_marks", "Total Marks"]

/-- Accepted spellings for the obtained marks column (`server.js` line 138). -/
def marksKeys : List String := ["Marks_Obtained", "marks_obtained", "Marks Obtained"]

/-- The normalized student record produced by the upload paths. -/
structure StudentRecord where
  student_id : String
  student_name : String
  total_marks : JNum
  marks_obtained : JNum
  percentage : JNum
deriving DecidableEq, Repr

/-- The row-normalization body shared verbatim by `processExcelFile`
(`server.js` lines 136-147) and `processCSVFile` (lines 160-171). -/
def normalizeRow (row : Row) : StudentRecord :=
  let totalMarks := toNumber (resolveKeys row totalKeys)
  let marksObtained := toNumber (resolveKeys row marksKeys)
  { student_id := jsToString (resolveKeys row idKeys)
    student_name := jsToString (resolveKeys row nameKeys)
    total_marks := totalMarks
    marks_obtained := marksObtained
    percentage := toFixed2 (jmul (jdiv marksObtained totalMarks) (JNum.fin 100)) }

/-- `processExcelFile` (`server.js` lines 129-152).  The external `xlsx`
parse of the byte buffer is abstracted as its outcome: either the parsed
rows or a parse failure.  The `catch` converts any parse failure into the
generic message. -/
def processExcelFile (parsed : Except String (List Row)) : Except String (List StudentRecord) :=
  match parsed with
  | Except.ok rows => Except.ok (rows.map normalizeRow)
  | Except.error _ => Except.error "Failed to process Excel file"

/-- `processCSVFile` (`server.js` lines 155-176), with the `papaparse` parse
of the buffer abstracted as its outcome. -/
def processCSVFile (parsed : Except String (List Row)) : Except String (List StudentRecord) :=
  match parsed with
  | Except.ok rows => Except.ok (rows.map normalizeRow)
  | Except.error _ => Except.error "Failed to process CSV file"

/-- Outcome of an upload attempt, as recorded in upload history. -/
inductive UStatus where
  | success : UStatus
  | error : UStatus
deriving DecidableEq, Repr

/-- An upload-history document (`server.js` lines 79-105); `upload_date`
(a wall-clock default) is not modelled. -/
structure UploadHistoryEntry where
  filename : String
  file_type : String
  students_count : Nat
  file_size : Nat
  status : UStatus
deriving DecidableEq, Repr

/-- Database state: the Student collection (documents keyed by their Mongo
id, modelled as a Nat), the UploadHistory collection (append-only list),
and a fresh-id counter standing for Mongo id generation. -/
structure DB where
  students : List (Nat × StudentRecord)
  history : List UploadHistoryEntry
  nextId : Nat
deriving DecidableEq, Repr

/-- `Student.insertMany(records)`: appends all records, each under a fresh
document id. -/
def insertManyRecords (recs : List StudentRecord) (db : DB) : DB :=
  { db with
    students := db.students ++ List.enumFrom db.nextId recs
    nextId := db.nextId + recs.length }

/-- The uploaded file as multer presents it to the handler. -/
structure UploadFile where
  originalname : String
  mimetype : String
  size : Nat
deriving DecidableEq, Repr

/-- Does the character list start with the given needle? -/
def beginsWith : List Char → List Char → Bool
  | _, [] => true
  | [], _ :: _ => false
  | a :: as, b :: bs => a = b && beginsWith as bs

/-- Does the character list contain the needle as a contiguous run? -/
def containsSub : List Char → List Char → Bool
  | [], needle => needle.isEmpty
  | a :: t, needle => beginsWith (a :: t) needle || containsSub t needle

/-- JavaScript `s.includes(sub)`. -/
def includes (s sub : String) : Bool :=
  containsSub s.toList sub.toList

/-- The history document built by the upload handler (`server.js`
lines 217-223 on success, 238-244 on failure). -/
def mkHistory (f : UploadFile) (count : Nat) (st : UStatus) : UploadHistoryEntry :=
  { filename := f.originalname
    file_type := if includes f.mimetype "csv" then "CSV" else "Excel"
    students_count := count
    file_size := f.size
    status := st }

/-- Response summary of the upload route: HTTP status and, on success, the
`count` field of the JSON body. -/
structure UploadResponse where
  status : Nat
  count : Option Nat
deriving DecidableEq, Repr

/-- The `catch` block of the upload handler (`server.js` lines 232-254):
best-effort append of an `error` history entry (its own failure is swallowed
— `histErrorOk` is the outcome of that write), then a 500 response.  The
`catch` is only reachable after the file-presence check, so the file is in
scope. -/
def uploadCatch (f : UploadFile) (histErrorOk : Bool) (db : DB) : UploadResponse × DB :=
  if histErrorOk then
    (⟨500, none⟩, { db with history := db.history ++ [mkHistory f 0 UStatus.error] })
  else (⟨500, none⟩, db)

/-- The `try` body after normalization succeeded (`server.js` lines
206-231), with the fallible external effects abstracted as their outcomes:
`connected` is `mongoose.connection.readyState === 1`; `insertOk` is whether
`Student.insertMany` succeeds (a duplicate `student_id` makes it throw after
`deleteMany` already emptied the collection); `histSuccessOk` is whether the
success-history write succeeds.  Any failure routes to the `catch`. -/
def uploadAfterProcess (f : UploadFile) (processed : Except String (List StudentRecord))
    (connected insertOk histSuccessOk histErrorOk : Bool) (db : DB) : UploadResponse × DB :=
  match processed with
  | Except.error _ => uploadCatch f histErrorOk db
  | Except.ok studentsData =>
    if connected = false then uploadCatch f histErrorOk db
    else if insertOk = false then uploadCatch f histErrorOk { db with students := [] }
    else
      let db2 := insertManyRecords studentsData { db with students := [] }
      if histSuccessOk = false then uploadCatch f histErrorOk db2
      else
        (⟨200, some studentsData.length⟩,
         { db2 with history := db2.history ++ [mkHistory f studentsData.length UStatus.success] })

/-- The upload route handler (`server.js` lines 181-255).  `parsed` is the
outcome of the external parse of the file's buffer (fed to whichever of
`processExcelFile` / `processCSVFile` the mimetype dispatch selects). -/
def uploadHandler (file : Option UploadFile) (parsed : Except String (List Row))
    (connected insertOk histSuccessOk histErrorOk : Bool) (db : DB) : UploadResponse × DB :=
  match file with
  | none => (⟨400, none⟩, db)
  | some f =>
    if includes f.mimetype "sheet" || includes f.mimetype "excel" then
      uploadAfterProcess f (processExcelFile parsed) connected insertOk histSuccessOk histErrorOk db
    else if includes f.mimetype "csv" then
      uploadAfterProcess f (processCSVFile parsed) connected insertOk histSuccessOk histErrorOk db
    else (⟨400, none⟩, db)

/-- The multer media-type allowlist (`server.js` lines 115-119). -/
def allowedTypes : List String :=
  ["application/vnd.openxmlformats-officedocument.spreadsheetml.sheet",
   "text/csv",
   "application/vnd.ms-excel"]

/-- The multer `fileFilter` predicate (`server.js` lines 114-125):
`allowedTypes.includes(file.mimetype)`. -/
def fileFilter (mimetype : String) : Bool :=
  decide (mimetype ∈ allowedTypes)

/-- The composed POST `/api/upload` request: multer runs first.  A file
whose mimetype fails `fileFilter` (or exceeds the 5 MB limit) makes multer
error out before the route handler; the error reaches the generic
error-handling middleware (`server.js` lines 357-364), which responds 500.
Otherwise the route handler runs with the accepted file. -/
def uploadRequest (file : Option UploadFile) (parsed : Except String (List Row))
    (connected insertOk histSuccessOk histErrorOk : Bool) (db : DB) : UploadResponse × DB :=
  match file with
  | none => uploadHandler none parsed connected insertOk histSuccessOk histErrorOk db
  | some f =>
    if fileFilter f.mimetype = false then (⟨500, none⟩, db)
    else if 5 * 1024 * 1024 < f.size then (⟨500, none⟩, db)
    else uploadHandler (some f) parsed connected insertOk histSuccessOk histErrorOk db

/-- The parsed JSON body of a PUT `/api/students/:id` request; only the
schema fields matter (mongoose discards others).  An absent field is
`none`; numeric fields carry idealized numbers. -/
structure UpdateBody where
  student_id : Option String
  student_name : Option String
  total_marks : Option JNum
  marks_obtained : Option JNum
  percentage : Option JNum
deriving DecidableEq, Repr

/-- Destructured numeric body field as the division sees it: an absent
field is `undefined`, which coerces to NaN. -/
def optToNum : Option JNum → JNum
  | none => JNum.nan
  | some n => n

/-- `Number((marks_obtained / total_marks * 100).toFixed(2))` computed from
the request body (`server.js` lines 312-313; identically in the legacy
server, lines 118-119). -/
def putPercentage (b : UpdateBody) : JNum :=
  toFixed2 (jmul (jdiv (optToNum b.marks_obtained) (optToNum b.total_marks)) (JNum.fin 100))

/-- The update document `{...req.body, percentage}` applied to a stored
record: each submitted field overwrites, and the `percentage` key is the
computed value — a `percentage` in the body is overridden by the spread and
never read. -/
def applyBody (b : UpdateBody) (pct : JNum) (r : StudentRecord) : StudentRecord :=
  { student_id := b.student_id.getD r.student_id
    student_name := b.student_name.getD r.student_name
    total_marks := b.total_marks.getD r.total_marks
    marks_obtained := b.marks_obtained.getD r.marks_obtained
    percentage := pct }

/-- `Student.findById`-style lookup in the modelled collection. -/
def findStudent (id : Nat) (l : List (Nat × StudentRecord)) : Option StudentRecord :=
  (l.find? fun p => p.1 = id).map Prod.snd

/-- Replace the record stored under `id`. -/
def updateById (id : Nat) (r : StudentRecord) (l : List (Nat × StudentRecord)) :
    List (Nat × StudentRecord) :=
  l.map fun p => if p.1 = id then (p.1, r) else p

/-- PUT `/api/students/:id` (`server.js` lines 310-336): recompute the
percentage from the submitted `total_marks` / `marks_obtained`, apply
`findByIdAndUpdate` with `{...req.body, percentage}`; 404 and no change
when the id does not exist.  Returns (status, response record, new state). -/
def putStudent (id : Nat) (b : UpdateBody) (db : DB) : Nat × Option StudentRecord × DB :=
  let pct := putPercentage b
  match findStudent id db.students with
  | none => (404, none, db)
  | some r =>
    let updated := applyBody b pct r
    (200, some updated, { db with students := updateById id updated db.students })

/-- DELETE `/api/students/:id` (`server.js` lines 339-355): 404 and no
change when the id does not exist, otherwise remove the document. -/
def deleteStudent (id : Nat) (db : DB) : Nat × DB :=
  match findStudent id db.students with
  | none => (404, db)
  | some _ => (200, { db with students := db.students.filter fun p => p.1 ≠ id })

/-- PUT `/api/students/:id` in the legacy server variant (unnamed source
file, lines 116-134): same recompute-and-spread update, but no not-found
check — `findByIdAndUpdate` returning null is sent as the 200 response
body. -/
def legacyPutStudent (id : Nat) (b : UpdateBody) (db : DB) : Nat × Option StudentRecord × DB :=
  let pct := putPercentage b
  match findStudent id db.students with
  | none => (200, none, db)
  | some r =>
    let updated := applyBody b pct r
    (200, some updated, { db with students := updateById id updated db.students })

/-- DELETE `/api/students/:id` in the legacy server variant (unnamed source
file, lines 137-144): `findByIdAndDelete` then an unconditional success
response — no not-found check. -/
def legacyDeleteStudent (id : Nat) (db : DB) : Nat × DB :=
  (200, { db with students := db.students.filter fun p => p.1 ≠ id })

/-- A 400-class HTTP status. -/
def is4xx (n : Nat) : Bool := decide (400 ≤ n ∧ n < 500)

/-- Concrete parsed row used to exercise the claims: canonical spellings,
total marks 100, marks obtained 80. -/
def rowA : Row := fun s =>
  if s = "Student_ID" then JSVal.str "S1"
  else if s = "Student_Name" then JSVal.str "Alice"
  else if s = "Total_Marks" then JSVal.num (JNum.fin 100)
  else if s = "Marks_Obtained" then JSVal.num (JNum.fin 80)
  else JSVal.undef

/-- A row with every key absent. -/
def rowEmpty : Row := fun _ => JSVal.undef

/-- A row whose only key is the last-priority id spelling, holding the
falsy empty string. -/
def rowBlankLastId : Row :=
  fun s => if s = "Student ID" then JSVal.str "" else JSVal.undef

/-- A row supplying total marks 0 under the last-priority spelling. -/
def rowVariantZero : Row :=
  fun s => if s = "Total Marks" then JSVal.num (JNum.fin 0) else JSVal.undef

/-- A row supplying total marks 0 under the canonical spelling. -/
def rowCanonZero : Row :=
  fun s => if s = "Total_Marks" then JSVal.num (JNum.fin 0) else JSVal.undef

/-- A row built from one chosen spelling per logical field. -/
def mkRow (k1 : String) (v1 : JSVal) (k2 : String) (v2 : JSVal)
    (k3 : String) (v3 : JSVal) (k4 : String) (v4 : JSVal) : Row :=
  fun s =>
    if s = k1 then v1
    else if s = k2 then v2
    else if s = k3 then v3
    else if s = k4 then v4
    else JSVal.undef

/-- A CSV upload file. -/
def csvFile : UploadFile := ⟨"grades.csv", "text/csv", 10⟩

/-- A file of a media type outside the accepted set. -/
def pdfFile : UploadFile := ⟨"grades.pdf", "application/pdf", 9⟩

/-- A stored student record predating an upload. -/
def recA : StudentRecord := ⟨"S0", "Old", JNum.fin 10, JNum.fin 5, JNum.fin 50⟩

/-- A database holding one student from a prior upload and no history. -/
def dbOne : DB := ⟨[(0, recA)], [], 1⟩

/-- An update body submitting new marks together with a bogus client-chosen
percentage. -/
def bodyA : UpdateBody := ⟨none, none, some (JNum.fin 50), some (JNum.fin 25), some (JNum.fin 99)⟩

/-- An update body submitting nothing. -/
def emptyBody : UpdateBody := ⟨none, none, none, none, none⟩

lemma truthy_undef : truthy JSVal.undef = false := rfl

lemma map_snd_enumFrom (n : Nat) (l : List StudentRecord) :
    (List.enumFrom n l).map Prod.snd = l := by
  induction l generalizing n with
  | nil => rfl
  | cons a t ih => simp [List.enumFrom, ih]

/-- C1: for every parsed row whose resolved total-marks value is a positive
(finite) number, both the Excel path and the CSV path produce a record whose
`percentage` equals `marks_obtained / total_marks * 100` rounded to two
decimal places. -/
theorem upload_percentage_round2 (rows : List Row) (r : Row) (hr : r ∈ rows)
    (t m : ℚ) (ht0 : 0 < t)
    (ht : toNumber (resolveKeys r totalKeys) = JNum.fin t)
    (hm : toNumber (resolveKeys r marksKeys) = JNum.fin m) :
    processExcelFile (Except.ok rows) = Except.ok (rows.map normalizeRow)
    ∧ processCSVFile (Except.ok rows) = Except.ok (rows.map normalizeRow)
    ∧ normalizeRow r ∈ rows.map normalizeRow
    ∧ (normalizeRow r).total_marks = JNum.fin t
    ∧ (normalizeRow r).marks_obtained = JNum.fin m
    ∧ (normalizeRow r).percentage = JNum.fin (round2Q (m / t * 100)) := by
  refine ⟨rfl, rfl, List.mem_map_of_mem _ hr, ?_, ?_, ?_⟩
  · simp [normalizeRow, ht]
  · simp [normalizeRow, hm]
  · simp [normalizeRow, ht, hm, jdiv, jmul, toFixed2, ht0.ne']

/-- Witness for C1 at a concrete row (80 of 100 marks). -/
theorem upload_percentage_round2_witness :
    (0 : ℚ) < 100
    ∧ toNumber (resolveKeys rowA totalKeys) = JNum.fin 100
    ∧ toNumber (resolveKeys rowA marksKeys) = JNum.fin 80
    ∧ (normalizeRow rowA).percentage = JNum.fin (round2Q (80 / 100 * 100)) :=
  ⟨by norm_num, by decide, by decide,
   (upload_percentage_round2 [rowA] rowA (List.mem_singleton.mpr rfl) 100 80
      (by norm_num) (by decide) (by decide)).2.2.2.2.2⟩

/-- C8: each processor fails exactly when the underlying parse of the byte
buffer fails, and then with the generic per-file-type message; on a
successful parse every row is normalized, none rejected. -/
theorem processing_error_generic (parsed : Except String (List Row)) (rows : List Row) :
    (processExcelFile parsed = Except.error "Failed to process Excel file"
        ↔ ∃ e, parsed = Except.error e)
    ∧ (processCSVFile parsed = Except.error "Failed to process CSV file"
        ↔ ∃ e, parsed = Except.error e)
    ∧ processExcelFile (Except.ok rows) = Except.ok (rows.map normalizeRow)
    ∧ processCSVFile (Except.ok rows) = Except.ok (rows.map normalizeRow) := by
  cases parsed <;> simp [processExcelFile, processCSVFile]

/-- C9: a row whose resolved total-marks is zero or missing is not rejected:
it normalizes to a record whose percentage is non-finite (NaN or Infinity). -/
theorem zero_or_missing_total_nonfinite (r : Row)
    (h : resolveKeys r totalKeys = JSVal.undef
         ∨ toNumber (resolveKeys r totalKeys) = JNum.fin 0) :
    jfinite (normalizeRow r).percentage = false
    ∧ processExcelFile (Except.ok [r]) = Except.ok [normalizeRow r]
    ∧ processCSVFile (Except.ok [r]) = Except.ok [normalizeRow r] := by
  refine ⟨?_, rfl, rfl⟩
  have h100 : (100 : ℚ) ≠ 0 := by norm_num
  have hT : toNumber (resolveKeys r totalKeys) = JNum.nan
      ∨ toNumber (resolveKeys r totalKeys) = JNum.fin 0 := by
    rcases h with h | h
    · exact Or.inl (by rw [h]; rfl)
    · exact Or.inr h
  rcases hT with h | h <;>
    rcases hM : toNumber (resolveKeys r marksKeys) with _ | b | q
  · simp [normalizeRow, h, hM, jdiv, jmul, toFixed2, jfinite]
  · simp [normalizeRow, h, hM, jdiv, jmul, toFixed2, jfinite]
  · simp [normalizeRow, h, hM, jdiv, jmul, toFixed2, jfinite]
  · simp [normalizeRow, h, hM, jdiv, jmul, toFixed2, jfinite]
  · simp [normalizeRow, h, hM, jdiv, jmul, toFixed2, jfinite, h100]
  · by_cases hq : q = 0 <;>
      simp [normalizeRow, h, hM, jdiv, jmul, toFixed2, jfinite, h100, hq]

/-- Witness for C9 at a row with no total-marks key at all. -/
theorem zero_or_missing_total_nonfinite_witness :
    resolveKeys rowEmpty totalKeys = JSVal.undef
    ∧ jfinite (normalizeRow rowEmpty).percentage = false :=
  ⟨by decide, (zero_or_missing_total_nonfinite rowEmpty (Or.inl (by decide))).1⟩

/-- C10 counterexample: a row where no accepted id spelling holds a truthy
value (the last spelling holds the falsy empty string) whose normalized
`student_id` is `""`, not the literal `"undefined"` the claim requires. -/
theorem missing_id_key_counterexample :
    truthy (rowBlankLastId "Student_ID") = false
    ∧ truthy (rowBlankLastId "student_id") = false
    ∧ truthy (rowBlankLastId "Student ID") = false
    ∧ (normalizeRow rowBlankLastId).student_id = ""
    ∧ ¬ (normalizeRow rowBlankLastId).student_id = "undefined" := by
  refine ⟨by decide, by decide, by decide, by decide, by decide⟩

/-- C10 amended: when the id (resp. name) key resolution yields `undefined`
— in particular when every accepted spelling is absent — the normalizer
does not fail and stores the literal string `"undefined"`, so two such rows
get identical `student_id` values. -/
theorem missing_id_key_undefined_string (r1 r2 : Row)
    (h1 : resolveKeys r1 idKeys = JSVal.undef)
    (h2 : resolveKeys r2 idKeys = JSVal.undef)
    (hn : resolveKeys r1 nameKeys = JSVal.undef) :
    (normalizeRow r1).student_id = "undefined"
    ∧ (normalizeRow r1).student_name = "undefined"
    ∧ (normalizeRow r1).student_id = (normalizeRow r2).student_id := by
  simp [normalizeRow, h1, h2, hn, jsToString]

/-- Witness for the amended C10 at the all-keys-absent row. -/
theorem missing_id_key_undefined_string_witness :
    resolveKeys rowEmpty idKeys = JSVal.undef
    ∧ (normalizeRow rowEmpty).student_id = "undefined" :=
  ⟨by decide,
   (missing_id_key_undefined_string rowEmpty rowEmpty (by decide) (by decide) (by decide)).1⟩

/-- C5 counterexample: the value 0 supplied under the last-priority
total-marks spelling normalizes differently from the same value under the
canonical spelling (`||` falls through to the last operand unchanged but
skips falsy values elsewhere). -/
theorem variant_normalization_counterexample :
    rowVariantZero "Total Marks" = JSVal.num (JNum.fin 0)
    ∧ rowCanonZero "Total_Marks" = JSVal.num (JNum.fin 0)
    ∧ (normalizeRow rowVariantZero).total_marks = JNum.fin 0
    ∧ (normalizeRow rowCanonZero).total_marks = JNum.nan
    ∧ ¬ normalizeRow rowVariantZero = normalizeRow rowCanonZero := by
  refine ⟨by decide, by decide, by decide, by decide, by decide⟩

/-- C5 amended: for truthy values, a row supplying each field under any
accepted spelling normalizes to the same record as one supplying the same
values under the canonical spellings; falsy values under the last-priority
spelling are passed through rather than falling to `undefined` (see the
counterexample). -/
theorem variant_normalization_truthy (k1 k2 k3 k4 : String) (v1 v2 v3 v4 : JSVal)
    (h1 : k1 ∈ idKeys) (h2 : k2 ∈ nameKeys) (h3 : k3 ∈ totalKeys) (h4 : k4 ∈ marksKeys)
    (t1 : truthy v1 = true) (t2 : truthy v2 = true)
    (t3 : truthy v3 = true) (t4 : truthy v4 = true) :
    normalizeRow (mkRow k1 v1 k2 v2 k3 v3 k4 v4) =
      normalizeRow (mkRow "Student_ID" v1 "Student_Name" v2 "Total_Marks" v3 "Marks_Obtained" v4) := by
  simp only [idKeys, nameKeys, totalKeys, marksKeys, List.mem_cons,
    List.mem_singleton, List.not_mem_nil, or_false] at h1 h2 h3 h4
  rcases h1 with rfl | rfl | rfl <;> rcases h2 with rfl | rfl | rfl <;>
    rcases h3 with rfl | rfl | rfl <;> rcases h4 with rfl | rfl | rfl <;>
      simp [normalizeRow, mkRow, resolveKeys, jsOr, idKeys, nameKeys, totalKeys,
        marksKeys, truthy_undef, t1, t2, t3, t4]

/-- Witness for the amended C5: lower-case spellings with truthy values
normalize identically to the canonical spellings. -/
theorem variant_normalization_truthy_witness :
    truthy (JSVal.str "S1") = true
    ∧ normalizeRow (mkRow "student_id" (JSVal.str "S1") "student_name" (JSVal.str "Alice")
        "total_marks" (JSVal.num (JNum.fin 100)) "marks_obtained" (JSVal.num (JNum.fin 80))) =
      normalizeRow (mkRow "Student_ID" (JSVal.str "S1") "Student_Name" (JSVal.str "Alice")
        "Total_Marks" (JSVal.num (JNum.fin 100)) "Marks_Obtained" (JSVal.num (JNum.fin 80))) :=
  ⟨by decide,
   variant_normalization_truthy "student_id" "student_name" "total_marks" "marks_obtained"
     (JSVal.str "S1") (JSVal.str "Alice") (JSVal.num (JNum.fin 100)) (JSVal.num (JNum.fin 80))
     (by decide) (by decide) (by decide) (by decide)
     (by decide) (by decide) (by decide) (by decide)⟩

lemma inc_xlsx_sheet :
    includes "application/vnd.openxmlformats-officedocument.spreadsheetml.sheet" "sheet" = true := by
  decide

lemma inc_xls_excel : includes "application/vnd.ms-excel" "excel" = true := by decide

lemma inc_xls_sheet : includes "application/vnd.ms-excel" "sheet" = false := by decide

lemma inc_csv_sheet : includes "text/csv" "sheet" = false := by decide

lemma inc_csv_excel : includes "text/csv" "excel" = false := by decide

lemma inc_csv_csv : includes "text/csv" "csv" = true := by decide

lemma fileFilter_cases (mt : String) (h : fileFilter mt = true) :
    mt = "application/vnd.openxmlformats-officedocument.spreadsheetml.sheet"
    ∨ mt = "text/csv" ∨ mt = "application/vnd.ms-excel" := by
  have hmem : mt ∈ allowedTypes := of_decide_eq_true h
  simpa [allowedTypes] using hmem

lemma afterProcess_200 (f : UploadFile) (data : List StudentRecord)
    (c i hs he : Bool) (db : DB)
    (h : (uploadAfterProcess f (Except.ok data) c i hs he db).1.status = 200) :
    uploadAfterProcess f (Except.ok data) c i hs he db
      = (⟨200, some data.length⟩,
         ⟨List.enumFrom db.nextId data,
          db.history ++ [mkHistory f data.length UStatus.success],
          db.nextId + data.length⟩) := by
  cases c <;> cases i <;> cases hs <;> cases he <;>
    simp_all [uploadAfterProcess, uploadCatch, insertManyRecords]

lemma afterProcess_history (f : UploadFile) (pr : Except String (List StudentRecord))
    (c i hs : Bool) (db : DB) :
    ∃ e : UploadHistoryEntry,
      ((uploadAfterProcess f pr c i hs true db).2).history = db.history ++ [e]
      ∧ (((uploadAfterProcess f pr c i hs true db).1.status = 200
            ∧ e.status = UStatus.success
            ∧ some e.students_count = (uploadAfterProcess f pr c i hs true db).1.count)
         ∨ ((uploadAfterProcess f pr c i hs true db).1.status = 500
            ∧ e.status = UStatus.error ∧ e.students_count = 0)) := by
  cases pr with
  | error e =>
      exact ⟨mkHistory f 0 UStatus.error, rfl, Or.inr ⟨rfl, rfl, rfl⟩⟩
  | ok data =>
      cases c with
      | false => exact ⟨mkHistory f 0 UStatus.error, rfl, Or.inr ⟨rfl, rfl, rfl⟩⟩
      | true =>
        cases i with
        | false => exact ⟨mkHistory f 0 UStatus.error, rfl, Or.inr ⟨rfl, rfl, rfl⟩⟩
        | true =>
          cases hs with
          | false => exact ⟨mkHistory f 0 UStatus.error, rfl, Or.inr ⟨rfl, rfl, rfl⟩⟩
          | true =>
              exact ⟨mkHistory f data.length UStatus.success, rfl, Or.inl ⟨rfl, rfl, rfl⟩⟩

lemma afterProcess_resp_he (f : UploadFile) (pr : Except String (List StudentRecord))
    (c i hs he : Bool) (db : DB) :
    (uploadAfterProcess f pr c i hs he db).1 = (uploadAfterProcess f pr c i hs true db).1 := by
  cases pr <;> cases c <;> cases i <;> cases hs <;> cases he <;>
    simp [uploadAfterProcess, uploadCatch]

lemma afterProcess_count (f : UploadFile) (data : List StudentRecord)
    (c i hs he : Bool) (db : DB)
    (h : (uploadAfterProcess f (Except.ok data) c i hs he db).1.status = 200) :
    (uploadAfterProcess f (Except.ok data) c i hs he db).1.count = some data.length := by
  rw [afterProcess_200 f data c i hs he db h]

/-- C2: whenever an upload request completes successfully with N normalized
rows, the student store afterwards holds exactly those N records — every
record from before the upload is gone (the handler deletes all prior
records before inserting the new set). -/
theorem upload_replace_semantics (f : UploadFile) (rows : List Row)
    (connected insertOk histSuccessOk histErrorOk : Bool) (db : DB)
    (h : (uploadHandler (some f) (Except.ok rows) connected insertOk histSuccessOk histErrorOk db).1.status
          = 200) :
    ((uploadHandler (some f) (Except.ok rows) connected insertOk histSuccessOk histErrorOk db).2).students.map Prod.snd
      = rows.map normalizeRow
    ∧ (uploadHandler (some f) (Except.ok rows) connected insertOk histSuccessOk histErrorOk db).1.count
      = some (rows.map normalizeRow).length := by
  by_cases hb1 : (includes f.mimetype "sheet" || includes f.mimetype "excel") = true
  · have hred : uploadHandler (some f) (Except.ok rows) connected insertOk histSuccessOk histErrorOk db
        = uploadAfterProcess f (Except.ok (rows.map normalizeRow)) connected insertOk histSuccessOk histErrorOk db := by
      simp [uploadHandler, hb1, processExcelFile]
    rw [hred] at h ⊢
    rw [afterProcess_200 _ _ _ _ _ _ _ h]
    exact ⟨map_snd_enumFrom _ _, rfl⟩
  · by_cases hb2 : includes f.mimetype "csv" = true
    · have hred : uploadHandler (some f) (Except.ok rows) connected insertOk histSuccessOk histErrorOk db
          = uploadAfterProcess f (Except.ok (rows.map normalizeRow)) connected insertOk histSuccessOk histErrorOk db := by
        simp [uploadHandler, hb1, hb2, processCSVFile]
      rw [hred] at h ⊢
      rw [afterProcess_200 _ _ _ _ _ _ _ h]
      exact ⟨map_snd_enumFrom _ _, rfl⟩
    · exfalso
      have : uploadHandler (some f) (Except.ok rows) connected insertOk histSuccessOk histErrorOk db
          = (⟨400, none⟩, db) := by
        simp [uploadHandler, hb1, hb2]
      rw [this] at h
      simp at h

/-- Witness for C2: a concrete CSV upload of one row into a store holding a
prior record. -/
theorem upload_replace_semantics_witness :
    (uploadHandler (some csvFile) (Except.ok [rowA]) true true true true dbOne).1.status = 200
    ∧ ((uploadHandler (some csvFile) (Except.ok [rowA]) true true true true dbOne).2).students.map Prod.snd
        = [rowA].map normalizeRow :=
  ⟨by decide, (upload_replace_semantics csvFile [rowA] true true true true dbOne (by decide)).1⟩

/-- C4: for every upload request whose file passed the media-type filter,
exactly one history entry is appended (when the history writes themselves
succeed): a `success` entry whose `students_count` matches the response
count on success, an `error` entry with count 0 on any failure after file
receipt; and a failure of the error-path history write is swallowed — the
response is identical whether that write succeeds or not. -/
theorem upload_history_exactly_once (f : UploadFile) (parsed : Except String (List Row))
    (connected insertOk histSuccessOk : Bool) (db : DB)
    (hallow : fileFilter f.mimetype = true) :
    (∃ e : UploadHistoryEntry,
      ((uploadHandler (some f) parsed connected insertOk histSuccessOk true db).2).history
          = db.history ++ [e]
      ∧ (((uploadHandler (some f) parsed connected insertOk histSuccessOk true db).1.status = 200
            ∧ e.status = UStatus.success
            ∧ some e.students_count
                = (uploadHandler (some f) parsed connected insertOk histSuccessOk true db).1.count)
         ∨ ((uploadHandler (some f) parsed connected insertOk histSuccessOk true db).1.status = 500
            ∧ e.status = UStatus.error ∧ e.students_count = 0)))
    ∧ (∀ rows : List Row, parsed = Except.ok rows →
        (uploadHandler (some f) parsed connected insertOk histSuccessOk true db).1.status = 200 →
        (uploadHandler (some f) parsed connected insertOk histSuccessOk true db).1.count
          = some rows.length)
    ∧ (∀ he : Bool,
        (uploadHandler (some f) parsed connected insertOk histSuccessOk he db).1
          = (uploadHandler (some f) parsed connected insertOk histSuccessOk true db).1) := by
  obtain ⟨nm, mt, sz⟩ := f
  have hred : ∃ pr : Except String (List StudentRecord),
      (∀ he : Bool, uploadHandler (some ⟨nm, mt, sz⟩) parsed connected insertOk histSuccessOk he db
        = uploadAfterProcess ⟨nm, mt, sz⟩ pr connected insertOk histSuccessOk he db)
      ∧ (∀ rows : List Row, parsed = Except.ok rows → pr = Except.ok (rows.map normalizeRow)) := by
    rcases fileFilter_cases mt hallow with rfl | rfl | rfl
    · exact ⟨processExcelFile parsed,
        fun he => by simp [uploadHandler, inc_xlsx_sheet],
        fun rows hr => by rw [hr]; rfl⟩
    · exact ⟨processCSVFile parsed,
        fun he => by simp [uploadHandler, inc_csv_sheet, inc_csv_excel, inc_csv_csv],
        fun rows hr => by rw [hr]; rfl⟩
    · exact ⟨processExcelFile parsed,
        fun he => by simp [uploadHandler, inc_xls_sheet, inc_xls_excel],
        fun rows hr => by rw [hr]; rfl⟩
  obtain ⟨pr, hh, hpr⟩ := hred
  refine ⟨?_, ?_, ?_⟩
  · rw [hh true]
    exact afterProcess_history ⟨nm, mt, sz⟩ pr connected insertOk histSuccessOk db
  · intro rows hrows h200
    rw [hh true] at h200 ⊢
    rw [hpr rows hrows] at h200 ⊢
    rw [afterProcess_count _ _ _ _ _ _ _ h200]
    simp
  · intro he
    rw [hh true, hh he]
    exact afterProcess_resp_he _ _ _ _ _ _ _

/-- Witness for C4: a concrete successful CSV upload appends one success
entry whose count matches the response. -/
theorem upload_history_exactly_once_witness :
    fileFilter csvFile.mimetype = true
    ∧ (∃ e : UploadHistoryEntry,
        ((uploadHandler (some csvFile) (Except.ok [rowA]) true true true true dbOne).2).history
            = dbOne.history ++ [e]
        ∧ (((uploadHandler (some csvFile) (Except.ok [rowA]) true true true true dbOne).1.status = 200
              ∧ e.status = UStatus.success
              ∧ some e.students_count
                  = (uploadHandler (some csvFile) (Except.ok [rowA]) true true true true dbOne).1.count)
           ∨ ((uploadHandler (some csvFile) (Except.ok [rowA]) true true true true dbOne).1.status = 500
              ∧ e.status = UStatus.error ∧ e.students_count = 0))) :=
  ⟨by decide,
   (upload_history_exactly_once csvFile (Except.ok [rowA]) true true true dbOne (by decide)).1⟩

/-- C6 counterexample: a file whose media type is outside the accepted set
is rejected with status 500 (the multer `fileFilter` error reaches the
generic error middleware), not with a 400-class response as claimed. -/
theorem invalid_type_counterexample :
    fileFilter pdfFile.mimetype = false
    ∧ (uploadRequest (some pdfFile) (Except.ok []) true true true true dbOne).1.status = 500
    ∧ is4xx (uploadRequest (some pdfFile) (Except.ok []) true true true true dbOne).1.status = false
    ∧ (uploadRequest (some pdfFile) (Except.ok []) true true true true dbOne).2 = dbOne := by
  refine ⟨by decide, by decide, by decide, by decide⟩

/-- C6 amended: a request with a file of unaccepted media type is rejected
with a 500 response (via the generic error middleware) before the route
handler runs: no history entry is written and the student store is
unchanged. -/
theorem invalid_type_rejected (f : UploadFile) (parsed : Except String (List Row))
    (connected insertOk histSuccessOk histErrorOk : Bool) (db : DB)
    (h : fileFilter f.mimetype = false) :
    uploadRequest (some f) parsed connected insertOk histSuccessOk histErrorOk db
      = (⟨500, none⟩, db) := by
  simp [uploadRequest, h]

/-- Witness for the amended C6 at a PDF upload. -/
theorem invalid_type_rejected_witness :
    fileFilter pdfFile.mimetype = false
    ∧ uploadRequest (some pdfFile) (Except.error "bad") true true true true dbOne
        = (⟨500, none⟩, dbOne) :=
  ⟨by decide,
   invalid_type_rejected pdfFile (Except.error "bad") true true true true dbOne (by decide)⟩

lemma findStudent_none_filter (id : Nat) (l : List (Nat × StudentRecord))
    (h : findStudent id l = none) :
    (l.filter fun p => p.1 ≠ id) = l := by
  have hf : (l.find? fun p => p.1 = id) = none := by
    cases hx : l.find? fun p => p.1 = id with
    | none => rfl
    | some v => rw [findStudent, hx] at h; simp at h
  have hall := List.find?_eq_none.mp hf
  apply List.filter_eq_self.mpr
  intro a ha
  simpa using hall a ha

/-- C7 counterexample: the legacy delete handler (unnamed source file,
lines 137-144) answers 200 for an id that does not exist, not a 404-class
response as the claim requires of every cited handler. -/
theorem legacy_delete_missing_counterexample :
    findStudent 5 dbOne.students = none
    ∧ (legacyDeleteStudent 5 dbOne).1 = 200
    ∧ is4xx (legacyDeleteStudent 5 dbOne).1 = false
    ∧ (legacyDeleteStudent 5 dbOne).2 = dbOne := by
  refine ⟨by decide, by decide, by decide, by decide⟩

/-- C7 amended: the `server.js` PUT and DELETE handlers answer 404 on a
missing id and leave the store unchanged; the legacy handlers in the
unnamed source file also leave the store unchanged but answer 200 (DELETE)
or 200 with a null body (PUT) instead of 404. -/
theorem missing_id_behavior (id : Nat) (b : UpdateBody) (db : DB)
    (h : findStudent id db.students = none) :
    putStudent id b db = (404, none, db)
    ∧ deleteStudent id db = (404, db)
    ∧ legacyPutStudent id b db = (200, none, db)
    ∧ (legacyDeleteStudent id db).1 = 200
    ∧ (legacyDeleteStudent id db).2 = db := by
  refine ⟨?_, ?_, ?_, rfl, ?_⟩
  · simp [putStudent, h]
  · simp [deleteStudent, h]
  · simp [legacyPutStudent, h]
  · show ({ db with students := db.students.filter fun p => p.1 ≠ id } : DB) = db
    rw [findStudent_none_filter id db.students h]

/-- Witness for the amended C7 at a store that lacks id 5. -/
theorem missing_id_behavior_witness :
    findStudent 5 dbOne.students = none
    ∧ putStudent 5 emptyBody dbOne = (404, none, dbOne)
    ∧ deleteStudent 5 dbOne = (404, dbOne) :=
  ⟨by decide,
   (missing_id_behavior 5 emptyBody dbOne (by decide)).1,
   (missing_id_behavior 5 emptyBody dbOne (by decide)).2.1⟩

lemma findStudent_updateById (id : Nat) (r : StudentRecord)
    (l : List (Nat × StudentRecord)) (r0 : StudentRecord)
    (h : findStudent id l = some r0) :
    findStudent id (updateById id r l) = some r := by
  induction l with
  | nil => simp [findStudent] at h
  | cons p t ih =>
    by_cases hp : p.1 = id
    · simp [findStudent, updateById, hp]
    · have h' : findStudent id t = some r0 := by
        simpa [findStudent, hp] using h
      have := ih h'
      simpa [findStudent, updateById, hp] using this

/-- C3: a PUT whose body carries `total_marks` and `marks_obtained` stores a
record whose percentage is recomputed from those submitted values, rounded
to two decimal places; the handler's result does not depend on any
`percentage` field in the body (in the legacy variant as well). -/
theorem put_recomputes_percentage (id : Nat) (b : UpdateBody) (db : DB)
    (t m : ℚ) (r0 : StudentRecord)
    (ht : b.total_marks = some (JNum.fin t)) (hm : b.marks_obtained = some (JNum.fin m))
    (ht0 : t ≠ 0) (hfound : findStudent id db.students = some r0) :
    (putStudent id b db).1 = 200
    ∧ (putStudent id b db).2.1 = some (applyBody b (putPercentage b) r0)
    ∧ (applyBody b (putPercentage b) r0).percentage = JNum.fin (round2Q (m / t * 100))
    ∧ findStudent id ((putStudent id b db).2.2).students
        = some (applyBody b (putPercentage b) r0)
    ∧ (∀ p1 p2 : Option JNum,
        putStudent id { b with percentage := p1 } db
          = putStudent id { b with percentage := p2 } db)
    ∧ (legacyPutStudent id b db).2.1 = some (applyBody b (putPercentage b) r0) := by
  refine ⟨?_, ?_, ?_, ?_, ?_, ?_⟩
  · simp [putStudent, hfound]
  · simp [putStudent, hfound]
  · simp [applyBody, putPercentage, ht, hm, optToNum, jdiv, jmul, toFixed2, ht0]
  · have hupd := findStudent_updateById id (applyBody b (putPercentage b) r0) db.students r0 hfound
    simp only [putStudent, hfound]
    exact hupd
  · intro p1 p2
    rfl
  · simp [legacyPutStudent, hfound]

/-- Witness for C3: updating to 25 of 50 marks yields percentage 50.00
even though the body also submits percentage 99. -/
theorem put_recomputes_percentage_witness :
    bodyA.total_marks = some (JNum.fin 50)
    ∧ bodyA.marks_obtained = some (JNum.fin 25)
    ∧ bodyA.percentage = some (JNum.fin 99)
    ∧ findStudent 0 dbOne.students = some recA
    ∧ (putStudent 0 bodyA dbOne).1 = 200
    ∧ (applyBody bodyA (putPercentage bodyA) recA).percentage
        = JNum.fin (round2Q (25 / 50 * 100)) :=
  ⟨rfl, rfl, rfl, by decide,
   (put_recomputes_percentage 0 bodyA dbOne 50 25 recA rfl rfl (by norm_num) (by decide)).1,
   (put_recomputes_percentage 0 bodyA dbOne 50 25 recA rfl rfl (by norm_num) (by decide)).2.2.1⟩
